import Mathlib

/-!
# Verification of the Agentic ELT demo (`app.py`)

A shallow embedding of the pure logic of `app.py`: the networking helper
`fetch`, the per-source normalizer `normalize_to_df`, and the dual-agent
commentary generator (`agent_1` / `agent_2` / `agentic_commentary`).

JSON payloads are modelled by the inductive `Json`; numbers are exact
rationals (`Rat`), which represents every literal appearing in the payloads
and claims exactly.  Python expressions that can raise are modelled in the
`Except String` monad, with the exception's class name as the error value:
`dict.get` on a non-dict raises `AttributeError`, slicing a dict raises
`TypeError`, and so on, exactly as in CPython.  Streamlit rendering calls
are side effects on the page only and carry no data flow, so they are not
modelled; the data each call would render is what the functions return.
-/

/-- A JSON value (plus Python `None`, which `json` maps to `null`).
Numbers are exact rationals. -/
inductive Json where
  | null
  | bool (b : Bool)
  | num (q : Rat)
  | str (s : String)
  | arr (elems : List Json)
  | obj (fields : List (String × Json))

namespace Json

/- Python `==` on scalar JSON values, used by the code only through
boolean masks and filters (`df["asset"] == "bitcoin"`, `dropna`).  The
deriving handler does not cover the nested `List` positions, so the
traversal is spelled out; no lawfulness is needed — concrete comparisons
in the proofs below reduce definitionally. -/
mutual

def eqv (a b : Json) : Bool :=
  match a, b with
  | .num x, .num y => x == y
  | .str x, .str y => x == y
  | .bool x, .bool y => x == y
  | .null, .null => true
  | .arr xs, .arr ys => eqvElems xs ys
  | .obj xs, .obj ys => eqvFields xs ys
  | _, _ => false

def eqvElems (as bs : List Json) : Bool :=
  match as, bs with
  | a :: as, b :: bs => eqv a b && eqvElems as bs
  | [], [] => true
  | _, _ => false

def eqvFields (as bs : List (String × Json)) : Bool :=
  match as, bs with
  | a :: as, b :: bs => a.1 == b.1 && eqv a.2 b.2 && eqvFields as bs
  | [], [] => true
  | _, _ => false

end

instance : BEq Json := ⟨eqv⟩

end Json

/- `Except` results are compared propositionally throughout; this instance
lets `decide` discharge concrete ones whose payload type is decidable. -/
instance {ε α : Type} [DecidableEq ε] [DecidableEq α] : DecidableEq (Except ε α) :=
  fun x y =>
    match x, y with
    | .ok a, .ok b => if h : a = b then .isTrue (by rw [h]) else .isFalse (by simp [h])
    | .error a, .error b => if h : a = b then .isTrue (by rw [h]) else .isFalse (by simp [h])
    | .ok _, .error _ => .isFalse (by simp)
    | .error _, .ok _ => .isFalse (by simp)

namespace Json

/-- Python `d.get(k, default)`: on a dict, the value at `k` (first binding;
the dicts built by `json.loads` have unique keys) or `default`; on any
non-dict receiver an `AttributeError` is raised. -/
def getD (j : Json) (k : String) (d : Json) : Except String Json :=
  match j with
  | .obj fs => .ok ((fs.lookup k).getD d)
  | _ => .error "AttributeError"

/-- Python `d.get(k)`: absent keys give `None`. -/
def get (j : Json) (k : String) : Except String Json :=
  j.getD k .null

/-- Python `d.items()` on the payload: the field list of a dict, in insertion
order (which `json.loads` preserves); `AttributeError` otherwise. -/
def items (j : Json) : Except String (List (String × Json)) :=
  match j with
  | .obj fs => .ok fs
  | _ => .error "AttributeError"

/-- Python iteration `for x in j`: lists yield their elements, dicts their
keys, strings their characters; numbers and the rest raise `TypeError`. -/
def asList (j : Json) : Except String (List Json) :=
  match j with
  | .arr xs => .ok xs
  | .obj fs => .ok (fs.map fun p => .str p.1)
  | .str s => .ok (s.data.map fun c => .str (String.singleton c))
  | _ => .error "TypeError"

/-- Python slicing `j[:n]`: defined on lists and strings; slicing a dict (or
a scalar) raises `TypeError`. -/
def sliceTo (j : Json) (n : Nat) : Except String (List Json) :=
  match j with
  | .arr xs => .ok (xs.take n)
  | .str s => .ok ((s.data.take n).map fun c => .str (String.singleton c))
  | _ => .error "TypeError"

/-- Python truthiness: `None`, `False`, `0`, `""`, `[]` and `{}` are falsy. -/
def truthy : Json → Bool
  | .null => false
  | .bool b => b
  | .num q => q != 0
  | .str s => s ≠ ""
  | .arr xs => !xs.isEmpty
  | .obj fs => !fs.isEmpty

end Json

/-- One normalized record: the field map of the Python row dict, in insertion
order.  `None` values are `Json.null`. -/
abbrev Row := List (String × Json)

/-- The tidy table: `pd.DataFrame(rows)` keeps the rows in order. -/
abbrev DF := List Row

/-- `df.empty`: a DataFrame built from a list of row dicts is empty exactly
when there are no rows or every row dict is empty (then there are no
columns, and pandas counts either zero-length axis as empty). -/
def dfEmpty (df : DF) : Bool :=
  df.isEmpty || df.all (·.isEmpty)

/-- Map a fallible row builder over a list, stopping at the first raise —
the shape of each `for ...: rows.append(...)` loop in `normalize_to_df`. -/
def mapME (f : α → Except String β) : List α → Except String (List β)
  | [] => .ok []
  | x :: xs =>
      match f x with
      | .error e => .error e
      | .ok y =>
          match mapME f xs with
          | .error e => .error e
          | .ok ys => .ok (y :: ys)

/-- As `mapME`, but each element contributes a list of rows (the nested
measurement loop of the OpenAQ branch). -/
def flatMapME (f : α → Except String (List β)) : List α → Except String (List β)
  | [] => .ok []
  | x :: xs =>
      match f x with
      | .error e => .error e
      | .ok ys =>
          match flatMapME f xs with
          | .error e => .error e
          | .ok rest => .ok (ys ++ rest)

/-- A successful `mapME` produces one row per element. -/
theorem mapME_length (f : α → Except String β) :
    ∀ (xs : List α) (ys : List β), mapME f xs = .ok ys → ys.length = xs.length
  | [], ys, h => by
      simp only [mapME, Except.ok.injEq] at h
      simp [← h]
  | x :: xs, ys, h => by
      simp only [mapME] at h
      cases hf : f x with
      | error e => rw [hf] at h; exact absurd h (by simp)
      | ok y =>
          rw [hf] at h
          cases hm : mapME f xs with
          | error e => rw [hm] at h; exact absurd h (by simp)
          | ok ys' =>
              rw [hm] at h
              simp only [Except.ok.injEq] at h
              simp [← h, mapME_length f xs ys' hm]

/-- `Except` bind reduction, for pushing `simp` through the `do` blocks. -/
theorem exceptBind_ok (a : α) (f : α → Except ε β) :
    (Except.ok a >>= f) = f a := rfl

theorem exceptBind_error (e : ε) (f : α → Except ε β) :
    ((Except.error e : Except ε α) >>= f) = .error e := rfl

theorem exceptPure (a : α) : (pure a : Except ε α) = .ok a := rfl

/-! ## UTC timestamp formatting

`datetime.utcfromtimestamp(ts/1000).strftime("%Y-%m-%d %H:%M:%S")` for the
USGS branch.  The epoch value is split into days and second-of-day, and the
civil date is recovered from the day number by the standard Gregorian
era/year-of-era decomposition.  The embedding is exact over `Rat` where
CPython goes through a float; the two agree on every epoch value whose
millisecond count is exactly representable, in particular on all claim
inputs. -/

/-- Zero-padded decimal rendering of width `w`. -/
def padNum (w : Nat) (n : Nat) : String :=
  let s := toString n
  String.mk (List.replicate (w - s.length) '0') ++ s

/-- Civil (Gregorian) date from a count of days since 1970-01-01, as
`(year, month, day)`.  Valid for all days of year 1 onwards. -/
def civilFromDays (days : Int) : Nat × Nat × Nat :=
  let z : Nat := (days + 719468).toNat
  let era := z / 146097
  let doe := z % 146097
  let yoe := (doe - doe / 1461 + doe / 36524 - doe / 146096) / 365
  let y := yoe + era * 400
  let doy := doe - (365 * yoe + yoe / 4 - yoe / 100)
  let mp := (5 * doy + 2) / 153
  let d := doy - (153 * mp + 2) / 5 + 1
  let m := if mp < 10 then mp + 3 else mp - 9
  (if m ≤ 2 then y + 1 else y, m, d)

/-- `datetime.utcfromtimestamp(secs).strftime("%Y-%m-%d %H:%M:%S")` for a
whole number of seconds. -/
def utcFormat (secs : Int) : String :=
  let days := secs.fdiv 86400
  let sod := (secs.emod 86400).toNat
  let ymd := civilFromDays days
  padNum 4 ymd.1 ++ "-" ++ padNum 2 ymd.2.1 ++ "-" ++ padNum 2 ymd.2.2 ++ " " ++
    padNum 2 (sod / 3600) ++ ":" ++ padNum 2 (sod % 3600 / 60) ++ ":" ++
    padNum 2 (sod % 60)

/-- The USGS branch's `datetime.utcfromtimestamp(ts/1000)` rendering: `ts`
is an epoch-millisecond number; the fractional seconds left by the division
are discarded by the `%S` field, so only `⌊ts/1000⌋ = ⌊num/(den·1000)⌋`
matters, written as an integer floor division to keep it kernel-reducible. -/
def utcFromMillis (ts : Rat) : String :=
  utcFormat (Int.fdiv ts.num (ts.den * 1000))

/-! ## Python `str()` of a scalar

Used by the f-strings (`f"{base}/{k}"` in the FX branch and the insight
messages).  A non-integer number is rendered in decimal; every float has a
dyadic denominator, so its decimal expansion is finite and the digit fuel
below is never exhausted on a value a payload float can denote. -/

/-- Decimal digits of `num/den < 1` by long division, up to `fuel` digits. -/
def fracDigits : Nat → Nat → Nat → String
  | 0, _, _ => ""
  | _, 0, _ => ""
  | fuel + 1, r, den =>
      toString (r * 10 / den) ++ fracDigits fuel (r * 10 % den) den

/-- Python `str()` of a scalar JSON value (`str(None) = "None"` etc.). -/
def pyStr : Json → String
  | .null => "None"
  | .bool true => "True"
  | .bool false => "False"
  | .str s => s
  | .num q =>
      if q.den = 1 then toString q.num
      else
        let sign := if q < 0 then "-" else ""
        let aq := |q|
        let ip := (⌊aq⌋).toNat
        let fr := aq - ⌊aq⌋
        sign ++ toString ip ++ "." ++ fracDigits 40 fr.num.toNat fr.den
  | .arr _ => "[...]"
  | .obj _ => "\x7b...\x7d"

/-! ## The per-source normalizer -/

/-- `normalize_to_df(key, raw)` from `app.py`: the ten-way dispatch mapping
each source's payload shape to a list of rows.  `raw = none` is Python
`None` (the transport-failure payload).  An `.error` value is an uncaught
Python exception escaping `normalize_to_df`. -/
def normalize_to_df (key : String) (raw : Option Json) : Except String DF := do
  match raw with
  | none => return []
  | some raw =>
  if key = "openaq" then
    let results ← (← raw.getD "results" (.arr [])).asList
    flatMapME (fun res => do
      let city ← res.get "city"
      let ms ← (← res.getD "measurements" (.arr [])).asList
      mapME (fun m => do
        return [("city", city),
                ("parameter", ← m.get "parameter"),
                ("value", ← m.get "value"),
                ("unit", ← m.get "unit"),
                ("updated", ← m.get "lastUpdated")]) ms) results
  else if key = "open_meteo" then
    let cur ← raw.getD "current" (.obj [])
    return [[("temperature_2m", ← cur.get "temperature_2m"),
             ("wind_speed_10m", ← cur.get "wind_speed_10m"),
             ("time", ← cur.get "time")]]
  else if key = "coingecko" then
    mapME (fun kv => do
      return [("asset", .str kv.1), ("usd", ← kv.2.get "usd")]) (← raw.items)
  else if key = "usgs_quakes" then
    let feats ← (← raw.getD "features" (.arr [])).asList
    mapME (fun f => do
      let p ← f.getD "properties" (.obj [])
      let ts ← p.getD "time" (.num 0)
      let tstr ← if ts.truthy then
          match ts with
          | .num q => pure (Json.str (utcFromMillis q))
          | _ => Except.error "TypeError"
        else pure .null
      return [("time", tstr), ("mag", ← p.get "mag"),
              ("place", ← p.get "place"), ("type", ← p.get "type")]) feats
  else if key = "spacex" then
    return [[("name", ← raw.get "name"),
             ("date_utc", ← raw.get "date_utc"),
             ("success", ← raw.get "success"),
             ("flight_number", ← raw.get "flight_number")]]
  else if key = "github_events" then
    let evs ← raw.sliceTo 30
    mapME (fun ev => do
      return [("type", ← ev.get "type"),
              ("repo", ← (← ev.getD "repo" (.obj [])).get "name"),
              ("actor", ← (← ev.getD "actor" (.obj [])).get "login"),
              ("created_at", ← ev.get "created_at")]) evs
  else if key = "nws_alerts" then
    let feats ← (← raw.getD "features" (.arr [])).asList
    mapME (fun f => do
      let p ← f.getD "properties" (.obj [])
      return [("event", ← p.get "event"), ("area", ← p.get "areaDesc"),
              ("severity", ← p.get "severity"), ("sent", ← p.get "sent")]) feats
  else if key = "fx_rates" then
    let base ← raw.get "base"
    let date ← raw.get "date"
    let rates ← (← raw.getD "rates" (.obj [])).items
    return rates.map fun kv =>
      [("pair", .str (pyStr base ++ "/" ++ kv.1)), ("rate", kv.2), ("date", date)]
  else if key = "iss_now" then
    let pos ← raw.getD "iss_position" (.obj [])
    return [[("latitude", ← pos.get "latitude"),
             ("longitude", ← pos.get "longitude"),
             ("timestamp", ← raw.get "timestamp")]]
  else if key = "binance" then
    -- `pd.DataFrame([raw])`: a dict becomes one row of its fields; any other
    -- single value becomes one row in a lone column pandas names `0`.
    match raw with
    | .obj fs => return [fs]
    | v => return [[("0", v)]]
  else
    return []

/-! ## The source table and the dual agents -/

/-- The `SOURCES` dict: key ↦ (display label, endpoint URL, short
description), in the order of definition. -/
def SOURCES : List (String × String × String × String) := [
  ("openaq", "OpenAQ (Air Quality)",
    "https://api.openaq.org/v2/latest?limit=20&sort=desc", "Live air quality readings"),
  ("open_meteo", "Open-Meteo (Weather – London)",
    "https://api.open-meteo.com/v1/forecast?latitude=51.5072&longitude=-0.1276&current=temperature_2m,wind_speed_10m", "Current weather snapshot"),
  ("coingecko", "CoinGecko (Crypto Prices)",
    "https://api.coingecko.com/api/v3/simple/price?ids=bitcoin,ethereum&vs_currencies=usd", "BTC & ETH spot prices"),
  ("usgs_quakes", "USGS (Earthquakes)",
    "https://earthquake.usgs.gov/fdsnws/event/1/query?format=geojson&limit=50&orderby=time", "Recent global earthquakes"),
  ("spacex", "SpaceX (Latest Launch)",
    "https://api.spacexdata.com/v4/launches/latest", "Latest launch data"),
  ("github_events", "GitHub (Public Events)",
    "https://api.github.com/events", "Live public GitHub events (rate-limited)"),
  ("nws_alerts", "US NWS (Weather Alerts)",
    "https://api.weather.gov/alerts/active?limit=20", "Active US weather alerts"),
  ("fx_rates", "Exchange Rates (exchangerate.host)",
    "https://api.exchangerate.host/latest?base=USD&symbols=EUR,GBP,JPY,INR", "Latest FX against USD"),
  ("iss_now", "Open-Notify (ISS Position)",
    "http://api.open-notify.org/iss-now.json", "Current ISS location"),
  ("binance", "Binance (BTCUSDT Ticker)",
    "https://api.binance.com/api/v3/ticker/price?symbol=BTCUSDT", "BTC/USDT spot price")]

/-- The ten known source identifiers, in table order. -/
def tenKeys : List String := SOURCES.map (·.1)

/-- `SOURCES[key]`: raises `KeyError` on an unknown identifier. -/
def sourceEntry (key : String) : Except String (String × String × String) :=
  match SOURCES.lookup key with
  | some e => .ok e
  | none => .error "KeyError"

/-- `row[col]` on a pandas row: `KeyError` when the column is absent. -/
def rowGet (r : Row) (col : String) : Except String Json :=
  match r.lookup col with
  | some v => .ok v
  | none => .error "KeyError"

/-- `float(x)` in Python: numbers pass through, booleans become 0/1,
numeric strings are parsed; `None` and containers raise `TypeError`. -/
def digitsVal : List Char → Nat → Option Nat
  | [], acc => some acc
  | c :: cs, acc =>
      if '0' ≤ c ∧ c ≤ '9' then digitsVal cs (acc * 10 + (c.toNat - 48)) else none

/-- `float(s)` on a plain decimal string `[+-]?digits[.digits]` (the only
string shapes these payloads carry; exponents are not modelled). -/
def parseDec (s : String) : Except String Rat :=
  let cs := s.data
  let (sign, cs) : Int × List Char :=
    match cs with
    | '-' :: rest => (-1, rest)
    | '+' :: rest => (1, rest)
    | rest => (1, rest)
  match (cs.splitOn '.').map (digitsVal · 0) with
  | [some a] => if cs.isEmpty then .error "ValueError" else .ok (mkRat (sign * a) 1)
  | [some a, some b] =>
      let fracLen := ((cs.splitOn '.').getD 1 []).length
      if cs.length = 1 then .error "ValueError"
      else .ok (mkRat (sign * (a * 10 ^ fracLen + b)) (10 ^ fracLen))
  | _ => .error "ValueError"

def pyFloat : Json → Except String Rat
  | .num q => .ok q
  | .bool b => .ok (if b then 1 else 0)
  | .str s => parseDec s
  | _ => .error "TypeError"

/-- Round half-to-even to an integer, as Python's `format` does. -/
def roundHalfEven (q : Rat) : Int :=
  let f := q.floor
  let r := q - mkRat f 1
  if r < mkRat 1 2 then f
  else if mkRat 1 2 < r then f + 1
  else if f % 2 = 0 then f else f + 1

/-- Group a reversed digit list in threes with commas (helper of the
`{:,.0f}` format spec). -/
def groupDigits : List Char → List Char
  | a :: b :: c :: d :: rest => a :: b :: c :: ',' :: groupDigits (d :: rest)
  | l => l

/-- `"{:,.0f}".format(x)`: round half-even to a whole number and group the
digits in threes with commas. -/
def fmtComma0 (q : Rat) : String :=
  let n := roundHalfEven q
  let digits := (toString n.natAbs).data.reverse
  (if n < 0 then "-" else "") ++ String.mk (groupDigits digits).reverse

/-- `f"{x:.{dec}f}"` for a number already known to be a float: fixed `dec`
decimals, rounded half-even. -/
def fmtFixedR (dec : Nat) (q : Rat) : String :=
  let n := roundHalfEven (q * mkRat (10 ^ dec : Nat) 1)
  let whole := n.natAbs / 10 ^ dec
  let frac := n.natAbs % 10 ^ dec
  (if n < 0 then "-" else "") ++ toString whole ++
    (if dec = 0 then "" else "." ++ padNum dec frac)

/-- `f"{x:.{dec}f}"` on a JSON scalar: a non-numeric argument raises
`ValueError`, as Python's format spec does. -/
def fmtFixed (dec : Nat) : Json → Except String String
  | .num q => .ok (fmtFixedR dec q)
  | _ => .error "ValueError"

/-- `df.loc[df[filterCol] == v, col].values[0]`: the `col` value of the
first row whose `filterCol` equals `v`; `IndexError` when no row matches,
`KeyError` when the column is missing from the match. -/
def colFirst (df : DF) (filterCol : String) (v : Json) (col : String) :
    Except String Json :=
  match df.filter (fun r => (r.lookup filterCol).getD .null == v) with
  | [] => .error "IndexError"
  | r :: _ => rowGet r col

/-- `df.sort_values(col, ascending=False)`: sort by the column, descending,
null keys (pandas `NaN`/`None`) last.  Pandas raises `TypeError` when the
column mixes incomparable types, modelled by requiring the non-null keys to
be all-numeric or all-string.  (Pandas's default quicksort is not stable,
but it is deterministic; a stable sort is one deterministic refinement.) -/
def sortRowsDesc (col : String) (df : DF) : Except String DF :=
  let keys := df.map fun r => (r.lookup col).getD .null
  let nonNull := keys.filter (· != .null)
  if nonNull.all (fun k => k matches .num _) ∨ nonNull.all (fun k => k matches .str _) then
    .ok (df.mergeSort fun r₁ r₂ =>
      match (r₁.lookup col).getD .null, (r₂.lookup col).getD .null with
      | .null, .null => true
      | .null, _ => false
      | _, .null => true
      | .num a, .num b => b ≤ a
      | .str a, .str b => decide (b ≤ a)
      | _, _ => true)
  else .error "TypeError"

/-- The source-specific `🧠 Insight` bullet of Agent 1.  The four branches
mirror the four `try:` blocks; any `.error` is the exception the bare
`except Exception: pass` swallows.  Sources without an insight branch are
folded into the same `.error` outcome, since both mean "no insight bullet
is appended". -/
def insight (key : String) (df : DF) : Except String String :=
  if key = "coingecko" then do
    let btc ← pyFloat (← colFirst df "asset" (.str "bitcoin") "usd")
    let eth ← pyFloat (← colFirst df "asset" (.str "ethereum") "usd")
    return "🧠 **Insight**: BTC ~ **$" ++ fmtComma0 btc ++ "**, ETH ~ **$" ++
      fmtComma0 eth ++ "** right now."
  else if key = "usgs_quakes" then do
    let q := df.filter fun r => (r.lookup "mag").getD .null != .null
    match ← sortRowsDesc "time" q with
    | [] => .error "IndexError"
    | recent :: _ =>
        return "🧠 **Insight**: Latest quake **M" ++
          pyStr ((recent.lookup "mag").getD .null) ++ "** near **" ++
          pyStr ((recent.lookup "place").getD .null) ++ "** at **" ++
          pyStr ((recent.lookup "time").getD .null) ++ "**."
  else if key = "fx_rates" then do
    match ← sortRowsDesc "rate" df with
    | [] => .error "IndexError"
    | top :: _ =>
        let r ← fmtFixed 3 ((top.lookup "rate").getD .null)
        return "🧠 **Insight**: Strongest vs USD: **" ++
          pyStr ((top.lookup "pair").getD .null) ++ "** at **" ++ r ++ "**."
  else if key = "open_meteo" then
    match df with
    | [] => .error "IndexError"
    | r :: _ => do
        let t ← pyFloat (← rowGet r "temperature_2m")
        let w ← pyFloat (← rowGet r "wind_speed_10m")
        return "🧠 **Insight**: Temp **" ++ fmtFixedR 1 t ++ "°C**, wind **" ++
          fmtFixedR 1 w ++ " m/s** in London."
  else .error "no insight branch for this source"

/-- The fixed Extract/Transform/Load bullets of Agent 1. -/
def extractMsg : String :=
  "📥 **Extract**: Live data returned successfully from the selected source."

def transformMsg : String :=
  "🧹 **Transform**: Normalized JSON → tidy table; basic schema checks passed."

def loadMsg : String :=
  "📊 **Load**: Rendering table and a minimal chart (when applicable)."

/-- The `st.success` banner of Agent 1. -/
def successLine (label : String) (n : Nat) : String :=
  "Connected to **" ++ label ++ "** and received **" ++ toString n ++ "** records."

/-- `agent_1(choice_key, df, raw)`: raises `ValueError` on an empty table,
otherwise renders the success banner and the bullet list, with the
source-specific insight appended when its `try:` block succeeds.  The
returned list is that rendered text, in order; `raw` is unused by the
function body so it is not a parameter here. -/
def agent_1 (key : String) (df : DF) : Except String (List String) :=
  if dfEmpty df then .error "No usable rows for analysis."
  else do
    let entry ← sourceEntry key
    let base := [successLine entry.1 df.length, extractMsg, transformMsg, loadMsg]
    match insight key df with
    | .ok m => return base ++ [m]
    | .error _ => return base

/-- The backup explanation Agent 2 renders: it names the checked source's
label, advises trying another of the ten sources, and shows the endpoint. -/
def agent2Msg (label url : String) : String :=
  "- 🔍 **Source Checked:** `" ++ label ++ "`\n" ++
  "- ✅ **Our App is working good**, but the **Source of Big Data (external)** appears **down or returned no rows**.\n" ++
  "- 🔁 **Action:** Please try another source from the list of 10 to keep the demo flowing.\n" ++
  "- 🌐 **Endpoint:** `" ++ url ++ "`"

/-- `agent_2(choice_key, df, raw, url)`: the `SOURCES[choice_key]` lookup
raises `KeyError` on an unknown identifier; otherwise the backup message is
rendered. -/
def agent_2 (key url : String) : Except String String := do
  let entry ← sourceEntry key
  return agent2Msg entry.1 url

/-- What one run of the commentary step renders: either Agent 1's primary
messages, or the `Agent 1 paused` warning followed by Agent 2's backup
message. -/
inductive Commentary where
  | primary (msgs : List String)
  | fallback (pause : String) (backup : String)

instance : DecidableEq Commentary := fun a b =>
  match a, b with
  | .primary x, .primary y =>
      if h : x = y then .isTrue (by rw [h]) else .isFalse (by simp [h])
  | .fallback p x, .fallback q y =>
      if h : p = q ∧ x = y then .isTrue (by rw [h.1, h.2])
      else .isFalse (by simp; intro hp hx; exact h ⟨hp, hx⟩)
  | .primary _, .fallback _ _ => .isFalse (by simp)
  | .fallback _ _, .primary _ => .isFalse (by simp)

/-- `agentic_commentary(choice_key, df, raw, url)`: try Agent 1; on any
exception, warn and hand over to Agent 2.  An exception raised by Agent 2
itself (the `KeyError` of an unknown identifier) is not caught and escapes,
which the outer `.error` records. -/
def agentic_commentary (key : String) (df : DF) (url : String) :
    Except String Commentary :=
  match agent_1 key df with
  | .ok msgs => .ok (.primary msgs)
  | .error e =>
      match agent_2 key url with
      | .ok m => .ok (.fallback ("Agent 1 paused: " ++ e) m)
      | .error e₂ => .error e₂

/-! ## The networking helper -/

/-- One attempt of `requests.get(url, ...)`, abstracted: the library either
raised (connection failure, timeout), or produced a response with a status
code, a body-JSON parse outcome (`r.json()`), and the raw body text
(`r.text`).  The request headers only shape the request itself, so they are
absorbed into this outcome. -/
inductive HttpResult where
  | exn (msg : String)
  | response (status : Nat) (body : Except String Json) (text : String)

/-- A successful `fetch` payload: parsed JSON, or the raw text when the
body does not parse. -/
inductive Payload where
  | json (j : Json)
  | text (s : String)

/-- `fetch(url)` from `app.py`, as a function of the request's outcome:
`raise_for_status` turns any 4xx/5xx status into an error result, a raised
transport exception becomes an error result, and otherwise the parsed JSON
(or, failing that, the raw text) is returned with no error. -/
def fetch (url : String) (r : HttpResult) : Option Payload × Option String :=
  match r with
  | .exn msg => (none, some msg)
  | .response status body text =>
      if 400 ≤ status ∧ status < 600 then
        (none, some (toString status ++ " Error for url: " ++ url))
      else
        match body with
        | .ok j => (some (.json j), none)
        | .error _ => (some (.text text), none)

/-! ## Claim-specific inputs -/

/-- The per-source "everything missing" payload: the empty JSON object —
all of `results`, `current`, `features`, `rates` and `iss_position` absent
— except for the GitHub source, whose payload is a list and whose empty
shape is the empty array. -/
def emptyPayload (key : String) : Json :=
  if key = "github_events" then .arr [] else .obj []

/-- Every field of the row is null. -/
def rowAllNull (r : Row) : Bool := r.all fun kv => kv.2 == Json.null

/-- A non-empty CoinGecko row set whose `usd` value is `None`, so the
insight's `float(...)` cast raises. -/
def c3_rows : DF := [[("asset", Json.str "bitcoin"), ("usd", Json.null)]]

/-- The literal crypto payload of the spec's functional test. -/
def c4_payload : Json :=
  .obj [("bitcoin", .obj [("usd", .num 65000)]), ("ethereum", .obj [("usd", .num 3200)])]

/-- A seismic payload with one feature: `properties.time = 1700000000000`,
`properties.mag = 5.1` (the exact rational 51/10). -/
def c5_payload : Json :=
  .obj [("features", .arr [.obj [("properties",
    .obj [("time", .num 1700000000000), ("mag", .num (mkRat 51 10))])]])]

/-- The row an all-defaults GitHub event normalizes to. -/
def ghRow : Row :=
  [("type", .null), ("repo", .null), ("actor", .null), ("created_at", .null)]

/-! ## Helper lemmas shared by the claim proofs -/

theorem agent_1_empty (key : String) (df : DF) (h : dfEmpty df = true) :
    agent_1 key df = .error "No usable rows for analysis." := by
  simp [agent_1, h]

theorem agent_1_insight_error (key : String) (df : DF) (e : String)
    (entry : String × String × String) (hne : dfEmpty df = false)
    (hs : sourceEntry key = .ok entry) (hins : insight key df = .error e) :
    agent_1 key df =
      .ok [successLine entry.1 df.length, extractMsg, transformMsg, loadMsg] := by
  simp [agent_1, hne, hs, hins, exceptBind_ok]

/-! ## The claims -/

set_option maxRecDepth 100000 in
/-- C1 (safety): for every one of the ten known source identifiers,
`normalize_to_df` applied to a payload with empty or absent substructures
returns (never raises) an empty row sequence or a row sequence in which
every missing field is null. -/
theorem normalize_empty_payload_safe :
    ∀ key ∈ tenKeys, ∃ rows : DF,
      normalize_to_df key (some (emptyPayload key)) = .ok rows ∧
        (rows.isEmpty || rows.all rowAllNull) = true := by
  intro key hk
  fin_cases hk <;> exact ⟨_, rfl, rfl⟩

set_option maxRecDepth 100000 in
theorem normalize_empty_payload_safe_witness :
    "openaq" ∈ tenKeys ∧ ∃ rows : DF,
      normalize_to_df "openaq" (some (emptyPayload "openaq")) = .ok rows ∧
        (rows.isEmpty || rows.all rowAllNull) = true :=
  ⟨by decide, normalize_empty_payload_safe "openaq" (by decide)⟩

set_option maxRecDepth 100000 in
/-- C2 (error handling): for every known source identifier, when the
normalized row set is empty the commentary step renders the backup
fallback — the `Agent 1 paused` warning and Agent 2's message, which names
the source's label and advises trying another source — and no exception
escapes (the result is `.ok`). -/
theorem commentary_empty_rows_fallback :
    ∀ key ∈ tenKeys, ∀ (df : DF) (url : String), dfEmpty df = true →
      ∃ entry, SOURCES.lookup key = some entry ∧
        agentic_commentary key df url =
          .ok (.fallback "Agent 1 paused: No usable rows for analysis."
                (agent2Msg entry.1 url)) := by
  intro key hk df url h
  fin_cases hk <;>
    exact ⟨_, rfl, by rw [agentic_commentary, agent_1_empty _ _ h]; rfl⟩

set_option maxRecDepth 100000 in
theorem commentary_empty_rows_fallback_witness :
    ("openaq" ∈ tenKeys ∧ dfEmpty [] = true) ∧
      ∃ entry, SOURCES.lookup "openaq" = some entry ∧
        agentic_commentary "openaq" [] "u" =
          .ok (.fallback "Agent 1 paused: No usable rows for analysis."
                (agent2Msg entry.1 "u")) :=
  ⟨⟨by decide, by decide⟩,
    commentary_empty_rows_fallback "openaq" (by decide) [] "u" (by decide)⟩

set_option maxRecDepth 100000 in
/-- C3 counterexample: on the CoinGecko source with one non-empty row whose
`usd` is `None`, the aggregate computation fails (`float(None)` raises),
yet the commentary is the primary-path messages without the insight —
not the generic fallback the claim requires: the `except ... pass` around
the insight swallows the failure and keeps the primary path. -/
theorem commentary_aggregate_failure_not_fallback :
    agentic_commentary "coingecko" c3_rows "u" =
      .ok (.primary [successLine "CoinGecko (Crypto Prices)" 1,
        extractMsg, transformMsg, loadMsg]) := by decide

set_option maxRecDepth 100000 in
/-- C3 (amended): for every known source identifier with a non-empty row
set, if computing the source-specific aggregate for the commentary fails,
the failure is silently swallowed and the commentary is the primary-path
messages without the aggregate bullet; the generic fallback is reserved for
the empty-row case. -/
theorem commentary_aggregate_failure_skips_insight :
    ∀ key ∈ tenKeys, ∀ (df : DF) (url : String) (e : String),
      dfEmpty df = false → insight key df = .error e →
      ∃ entry, SOURCES.lookup key = some entry ∧
        agentic_commentary key df url =
          .ok (.primary [successLine entry.1 df.length,
                extractMsg, transformMsg, loadMsg]) := by
  intro key hk df url e hne hins
  fin_cases hk <;>
  · refine ⟨_, rfl, ?_⟩
    rw [agentic_commentary, agent_1_insight_error _ _ _ _ hne (by rfl) hins]

set_option maxRecDepth 100000 in
theorem commentary_aggregate_failure_skips_insight_witness :
    ("coingecko" ∈ tenKeys ∧ dfEmpty c3_rows = false ∧
        insight "coingecko" c3_rows = .error "TypeError") ∧
      ∃ entry, SOURCES.lookup "coingecko" = some entry ∧
        agentic_commentary "coingecko" c3_rows "u" =
          .ok (.primary [successLine entry.1 c3_rows.length,
                extractMsg, transformMsg, loadMsg]) :=
  ⟨⟨by decide, by decide, by decide⟩,
    commentary_aggregate_failure_skips_insight "coingecko" (by decide) c3_rows "u"
      "TypeError" (by decide) (by decide)⟩

/-- C4 (functional correctness): normalizing the literal payload
`{"bitcoin":{"usd":65000},"ethereum":{"usd":3200}}` under the `coingecko`
identifier yields exactly the two rows `{asset: "bitcoin", usd: 65000}`
and `{asset: "ethereum", usd: 3200}`, in that order. -/
theorem coingecko_two_rows :
    normalize_to_df "coingecko" (some c4_payload) =
      .ok [[("asset", .str "bitcoin"), ("usd", .num 65000)],
           [("asset", .str "ethereum"), ("usd", .num 3200)]] := by rfl

/-- C5 (functional correctness): normalizing a `usgs_quakes` payload with
one feature whose `properties.time` is `1700000000000` and whose
`properties.mag` is `5.1` yields a row whose `time` is the `%Y-%m-%d
%H:%M:%S` UTC rendering of that epoch-millisecond value — the string
`"2023-11-14 22:13:20"` — and whose `mag` is `5.1` (= 51/10) unchanged. -/
theorem usgs_time_formatting :
    normalize_to_df "usgs_quakes" (some c5_payload) =
      .ok [[("time", .str (utcFromMillis 1700000000000)),
            ("mag", .num (mkRat 51 10)), ("place", .null), ("type", .null)]] ∧
      utcFromMillis 1700000000000 = "2023-11-14 22:13:20" :=
  ⟨by rfl, by rfl⟩

/-- C6 (error handling): for every URL and every outcome of the underlying
GET request, `fetch` returns either a payload (parsed JSON or raw text)
with a null error, or a null payload with a non-null error — transport
failures and 4xx/5xx statuses all land in the second case, and no exception
escapes (the function is total). -/
theorem fetch_payload_xor_error (url : String) (r : HttpResult) :
    ((fetch url r).1 ≠ none ∧ (fetch url r).2 = none) ∨
    ((fetch url r).1 = none ∧ (fetch url r).2 ≠ none) := by
  cases r with
  | exn msg => right; exact ⟨rfl, by simp [fetch]⟩
  | response status body text =>
      by_cases h : 400 ≤ status ∧ status < 600
      · right; simp [fetch, h]
      · left; cases body <;> simp [fetch, h]

/-- C7 (determinism): commentary generation reads no clock and no
randomness, so in the embedding it is a pure function of the source
identifier, the row set and the URL: two runs on equal row sets render the
identical commentary. -/
theorem commentary_deterministic (key url : String) (df₁ df₂ : DF)
    (h : df₁ = df₂) :
    agentic_commentary key df₁ url = agentic_commentary key df₂ url := by rw [h]

theorem commentary_deterministic_witness :
    ([] : DF) = ([] : DF) ∧
      agentic_commentary "coingecko" [] "u" = agentic_commentary "coingecko" [] "u" :=
  ⟨rfl, commentary_deterministic "coingecko" "u" [] [] rfl⟩

/-- C8 (functional correctness): for every source identifier outside the
ten known ones, and every non-null payload, `normalize_to_df` falls through
the whole dispatch chain and returns the empty row sequence. -/
theorem normalize_unknown_key_empty (key : String) (raw : Json)
    (hk : key ∉ tenKeys) :
    normalize_to_df key (some raw) = .ok [] := by
  simp only [tenKeys, SOURCES, List.map_cons, List.map_nil, List.mem_cons,
    List.not_mem_nil, or_false, not_or] at hk
  obtain ⟨h1, h2, h3, h4, h5, h6, h7, h8, h9, h10⟩ := hk
  simp [normalize_to_df, h1, h2, h3, h4, h5, h6, h7, h8, h9, h10, exceptPure]

theorem normalize_unknown_key_empty_witness :
    "nope" ∉ tenKeys ∧ normalize_to_df "nope" (some Json.null) = .ok [] :=
  ⟨by decide, normalize_unknown_key_empty "nope" Json.null (by decide)⟩

/-- C9 (error handling): for the `usgs_quakes` source, a feature whose
`properties.time` is absent (the `.get` default `0` applies) or equal to
`0` yields a row whose `time` field is null, not the formatted rendering of
epoch 0, because the formatting is guarded by the timestamp's truthiness
and `0` is falsy. -/
theorem usgs_falsy_time_null (props : List (String × Json))
    (h : props.lookup "time" = none ∨ props.lookup "time" = some (.num 0)) :
    normalize_to_df "usgs_quakes"
        (some (.obj [("features", .arr [.obj [("properties", .obj props)]])])) =
      .ok [[("time", .null), ("mag", (props.lookup "mag").getD .null),
            ("place", (props.lookup "place").getD .null),
            ("type", (props.lookup "type").getD .null)]] := by
  rcases h with h | h <;>
    simp [normalize_to_df, Json.getD, Json.get, Json.asList, Json.truthy, h,
      mapME, exceptBind_ok, exceptPure, List.lookup]

theorem usgs_falsy_time_null_witness :
    (List.lookup "time" [("mag", Json.num (mkRat 51 10))] = none ∨
        List.lookup "time" [("mag", Json.num (mkRat 51 10))] = some (.num 0)) ∧
      normalize_to_df "usgs_quakes"
          (some (.obj [("features",
            .arr [.obj [("properties", .obj [("mag", Json.num (mkRat 51 10))])]])])) =
        .ok [[("time", .null),
              ("mag", (List.lookup "mag" [("mag", Json.num (mkRat 51 10))]).getD .null),
              ("place", (List.lookup "place" [("mag", Json.num (mkRat 51 10))]).getD .null),
              ("type", (List.lookup "type" [("mag", Json.num (mkRat 51 10))]).getD .null)]] :=
  ⟨Or.inl (by rfl),
    usgs_falsy_time_null [("mag", Json.num (mkRat 51 10))] (Or.inl (by rfl))⟩

/-- C10 (functional correctness): for the `github_events` source, only the
first 30 events of the payload list become rows — a successful
normalization has `min 30 (number of events)` rows and agrees with
normalizing the truncated list, so events past the 30th are dropped. -/
theorem github_events_at_most_30 (events : List Json) (rows : DF)
    (h : normalize_to_df "github_events" (some (.arr events)) = .ok rows) :
    rows.length = min 30 events.length ∧
      normalize_to_df "github_events" (some (.arr (events.take 30))) = .ok rows := by
  simp only [normalize_to_df, Json.sliceTo, exceptBind_ok, exceptPure,
    String.reduceEq, if_false, if_true, reduceIte] at h ⊢
  constructor
  · rw [mapME_length _ _ _ h, List.length_take]
  · rw [List.take_take]
    simpa using h

set_option maxRecDepth 100000 in
theorem github_events_at_most_30_witness :
    (normalize_to_df "github_events"
        (some (.arr (List.replicate 31 (Json.obj [])))) =
          .ok (List.replicate 30 ghRow)) ∧
      ((List.replicate 30 ghRow : DF).length =
          min 30 (List.replicate 31 (Json.obj [])).length ∧
        normalize_to_df "github_events"
            (some (.arr ((List.replicate 31 (Json.obj [])).take 30))) =
          .ok (List.replicate 30 ghRow)) :=
  ⟨by rfl, github_events_at_most_30 _ _ (by rfl)⟩
